import Mathlib

/-!
Verification of the yubistack OTP validation core (src/yubistack/ykval.py)
against its specification.

Shallow embedding notes:
* Python ints are modelled as ℤ (the counter sentinel is -1, so ℕ does not fit);
  Python floats appearing in the phishing test are modelled as ℚ.
* Database rows become explicit records; the conditional SQL UPDATE of
  DBH.update_db_counters becomes a pure function on the row.
* Network and clock effects are oracle inputs: the KSM answer, the list of
  sibling sync responses that arrive before the deadline, and the wall-clock
  readings are all parameters of the embedded functions.
* The helper module yubistack/utils.py and yubistack/config.py are not part of
  src/; the definitions taken from the spec instead of the source are marked
  with a doc comment starting with the words Modelled from the spec.
-/

namespace Yubistack

/-- Modelled from the spec: config.py is absent from src/. Spec section 6 fixes
TOKEN_LEN = 32. -/
def TOKEN_LEN : ℕ := 32

/-- Modelled from the spec: config.py is absent from src/. Spec section 6 fixes
OTP_MAX_LEN = 48. -/
def OTP_MAX_LEN : ℕ := 48

/-- Modelled from the spec: config.py is absent from src/. Spec section 6 fixes
TS_SEC = 1/8 (the on-token clock ticks at 8 Hz). -/
def TS_SEC : ℚ := 1/8

/-- Modelled from the spec: config.py is absent from src/. Spec section 6 fixes
TS_REL_TOLERANCE = 0.3. -/
def TS_REL_TOLERANCE : ℚ := 3/10

/-- Modelled from the spec: config.py is absent from src/. Spec section 6 fixes
TS_ABS_TOLERANCE = 20. -/
def TS_ABS_TOLERANCE : ℚ := 20

/-- Errors raised by the validator (exceptions.YKValError kinds, spec section 7).
MISSING_PARAMETER and INVALID_PARAMETER carry the parameter name. -/
inductive YKValError
  | BAD_OTP
  | REPLAYED_OTP
  | REPLAYED_REQUEST
  | DELAYED_OTP
  | NO_SUCH_CLIENT
  | DISABLED_TOKEN
  | MISSING_PARAMETER (param : String)
  | INVALID_PARAMETER (param : String)
  | NOT_ENOUGH_ANSWERS
  | BACKEND_ERROR
  deriving DecidableEq, Repr

/-- Errors raised by the sync engine (exceptions.YKSyncError kinds). -/
inductive YKSyncError
  | MISSING_PARAMETER (param : String)
  | INVALID_PARAMETER (param : String)
  | DISABLED_TOKEN
  deriving DecidableEq, Repr

/-- The (yk_counter, yk_use) pair that the counter comparison helpers operate on. -/
structure Counters where
  yk_counter : ℤ
  yk_use : ℤ
  deriving DecidableEq, Repr

/-- A row of the yubikeys table (one Key Counter Record, spec section 3).
The created column never influences behaviour and is omitted. -/
structure KeyRecord where
  active : Bool
  modified : ℤ
  yk_publicname : String
  yk_counter : ℤ
  yk_use : ℤ
  yk_low : ℤ
  yk_high : ℤ
  nonce : String
  deriving DecidableEq, Repr

/-- The transient OTP parameter bag built by Validator.build_otp_params, also the
shape of a sibling sync request or parsed sync response (REQUIRED_PARAMS). -/
structure OtpParams where
  modified : ℤ
  otp : String
  nonce : String
  yk_publicname : String
  yk_counter : ℤ
  yk_use : ℤ
  yk_high : ℤ
  yk_low : ℤ
  deriving DecidableEq, Repr

def KeyRecord.ctr (r : KeyRecord) : Counters := ⟨r.yk_counter, r.yk_use⟩

def OtpParams.ctr (p : OtpParams) : Counters := ⟨p.yk_counter, p.yk_use⟩

/-- Modelled from the spec: utils.counters_eq is absent from src/. Spec section
4.1: eq(a,b) iff both components of (yk_counter, yk_use) are equal. -/
def counters_eq (a b : Counters) : Bool :=
  a.yk_counter == b.yk_counter && a.yk_use == b.yk_use

/-- Modelled from the spec: utils.counters_gt is absent from src/. Spec section
4.1: gt(a,b) iff a.yk_counter > b.yk_counter or (equal and a.yk_use > b.yk_use). -/
def counters_gt (a b : Counters) : Bool :=
  decide (b.yk_counter < a.yk_counter) ||
    (a.yk_counter == b.yk_counter && decide (b.yk_use < a.yk_use))

/-- Modelled from the spec: utils.counters_gte is absent from src/. Spec section
4.1: gte(a,b) iff gt(a,b) or eq(a,b). -/
def counters_gte (a b : Counters) : Bool :=
  counters_gt a b || counters_eq a b

/-- Strict lexicographic order on (yk_counter, yk_use) pairs, used to state the
claims in the spec's own vocabulary. -/
def lexLt (a b : ℤ × ℤ) : Prop := a.1 < b.1 ∨ (a.1 = b.1 ∧ a.2 < b.2)

/-- Reflexive lexicographic order on (yk_counter, yk_use) pairs. -/
def lexLe (a b : ℤ × ℤ) : Prop := lexLt a b ∨ a = b

instance lexLt.dec (a b : ℤ × ℤ) : Decidable (lexLt a b) := by
  unfold lexLt; exact inferInstance

instance lexLe.dec (a b : ℤ × ℤ) : Decidable (lexLe a b) := by
  unfold lexLe; exact inferInstance

/-- DBH.update_db_counters: the conditional UPDATE on the yubikeys table. The row
is overwritten only when the WHERE clause holds: the public name matches and the
stored (yk_counter, yk_use) pair is lexicographically below the new pair. -/
def update_db_counters (rec : KeyRecord) (p : OtpParams) : KeyRecord :=
  if rec.yk_publicname == p.yk_publicname &&
      (decide (rec.yk_counter < p.yk_counter) ||
        (rec.yk_counter == p.yk_counter && decide (rec.yk_use < p.yk_use))) then
    { rec with
      modified := p.modified
      yk_counter := p.yk_counter
      yk_use := p.yk_use
      yk_low := p.yk_low
      yk_high := p.yk_high
      nonce := p.nonce }
  else rec

/-- Validator.validate_otp: the local replay check. On success it performs the
conditional counter update; the returned record is the stored row afterwards. -/
def validate_otp (otp_params : OtpParams) (local_params : KeyRecord) :
    Except YKValError KeyRecord :=
  if counters_eq local_params.ctr otp_params.ctr && local_params.nonce == otp_params.nonce then
    .error .REPLAYED_REQUEST
  else if counters_gte local_params.ctr otp_params.ctr then
    .error .REPLAYED_OTP
  else
    .ok (update_db_counters local_params otp_params)

/-- Validator.phishing_test. The two time.time() readings of the source are the
single reading at line 531; the build-time reading only enters through
local_params.modified, which here is the stored row's value. -/
def phishing_test (otp_params : OtpParams) (local_params : KeyRecord) (now : ℤ) :
    Except YKValError Unit :=
  if otp_params.yk_counter ≠ local_params.yk_counter then .ok ()
  else
    let new_ts : ℤ := otp_params.yk_high * 65536 + otp_params.yk_low
    let old_ts : ℤ := local_params.yk_high * 65536 + local_params.yk_low
    let ts_delta : ℚ := ((new_ts - old_ts : ℤ) : ℚ) * TS_SEC
    let elapsed : ℤ := now - local_params.modified
    let deviation : ℚ := |((elapsed : ℚ)) - ts_delta|
    let percent : ℚ := if elapsed ≠ 0 then deviation / ((elapsed : ℤ) : ℚ) else 1
    if TS_ABS_TOLERANCE < deviation ∧ TS_REL_TOLERANCE < percent then
      .error .DELAYED_OTP
    else .ok ()

/-- The metrics dictionary returned by Sync.sync_remote. -/
structure SyncMetrics where
  answers : ℤ
  valid_answers : ℤ
  deriving DecidableEq, Repr

/-- A collected sync response proves replay (spec section 4.4, step 4): its
counters exceed the OTP's counters, or equal them with a different nonce. -/
def provesReplay (resp otp_params : OtpParams) : Bool :=
  counters_gt resp.ctr otp_params.ctr ||
    (counters_eq resp.ctr otp_params.ctr && resp.nonce != otp_params.nonce)

/-- The response-processing loop of Sync.sync_remote (lines 324-355): for each
collected response, apply the conditional counter update, then classify the
response against otp_params; a response that does not indicate replay counts as
valid, and the loop breaks as soon as required_answers valid answers are seen.
The comparisons against local_params only produce log warnings and are omitted. -/
def sync_loop (otp_params : OtpParams) (required_answers : ℤ) :
    List OtpParams → KeyRecord → ℤ → KeyRecord × ℤ
  | [], rec, valid => (rec, valid)
  | resp :: rest, rec, valid =>
    let rec2 := update_db_counters rec resp
    if counters_gt resp.ctr otp_params.ctr then
      sync_loop otp_params required_answers rest rec2 valid
    else if counters_eq resp.ctr otp_params.ctr && resp.nonce != otp_params.nonce then
      sync_loop otp_params required_answers rest rec2 valid
    else if required_answers = valid + 1 then (rec2, valid + 1)
    else sync_loop otp_params required_answers rest rec2 (valid + 1)

/-- Sync.sync_remote. The collection while-loop (lines 311-319) appends a
response only while fewer than required_answers have been collected, so the
processed list is a prefix, of length at most required_answers, of the stream of
responses arriving before the deadline; that stream is the oracle input arrived.
The record rec is the stored row for the key, threaded through the conditional
updates the loop performs. -/
def sync_remote (otp_params : OtpParams) (rec : KeyRecord) (required_answers : ℤ)
    (arrived : List OtpParams) : KeyRecord × SyncMetrics :=
  let responses := arrived.take required_answers.toNat
  let out := sync_loop otp_params required_answers responses rec 0
  (out.1, { answers := (responses.length : ℤ), valid_answers := out.2 })

/-- Python's round() on a rational a/100: round half to even. The source computes
round(len(sync_servers) * float(sync_level) / 100.0); with n servers and an
integer sync_level validated into [0, 100], n * sync_level is exact in double
precision and its quotient by 100 either is an exact representable half-integer
or lies farther than one ulp from any half-integer, so the float expression
rounds exactly like the rational (n * sync_level) / 100. -/
def pyRoundDiv100 (a : ℤ) : ℤ :=
  let d := a.fdiv 100
  let r := a.fmod 100
  if r < 50 then d else if 50 < r then d + 1 else if d % 2 = 0 then d else d + 1

/-- The required quorum computed by Validator.replicate, line 493:
round(len(self.sync_servers) * float(self.sync_level) / 100.0). -/
def req_answers (n_servers : ℕ) (sync_level : ℤ) : ℤ :=
  pyRoundDiv100 ((n_servers : ℤ) * sync_level)

/-- Validator.replicate, lines 488-518. The enqueue calls only touch the queue
table and are dropped; the outcome of Sync.sync_remote is determined by the
oracle list arrived. The second component of the result is the Except outcome;
inside ok it carries the value the Python function returns to its caller, which
is None (the body has no return statement), encoded as Option.none. The rate
sync_level_success_rate is computed at line 499 or 502 but only logged. -/
def replicate (n_servers : ℕ) (sync_level : ℤ) (otp_params : OtpParams)
    (rec : KeyRecord) (arrived : List OtpParams) :
    KeyRecord × Except YKValError (Option ℚ) :=
  let req := req_answers n_servers sync_level
  if req = 0 then (rec, .ok none)
  else
    let out := sync_remote otp_params rec req arrived
    if out.2.valid_answers = req then (out.1, .ok none)
    else if out.2.valid_answers ≠ out.2.answers then (out.1, .error .REPLAYED_OTP)
    else (out.1, .error .NOT_ENOUGH_ANSWERS)

/-- Sync.sync_local, lines 223-269. check_sync_input only verifies that all
REQUIRED_PARAMS are present and that the numeric ones are ints or the -1
sentinel; the typed parameter record satisfies that by construction. The
function applies the conditional counter update, emits log-only warnings
(omitted), raises DISABLED_TOKEN if the local record is inactive, and otherwise
returns the local_params dict fetched before the update. The first component of
the result is the stored row after the call. -/
def sync_local (rec : KeyRecord) (sync_params : OtpParams) :
    KeyRecord × Except YKSyncError KeyRecord :=
  let rec2 := update_db_counters rec sync_params
  if !rec.active then (rec2, .error .DISABLED_TOKEN)
  else (rec2, .ok rec)

/-- The params dictionary assembled by Validator.verify (lines 603-610). The
nonce field holds the value after the server-nonce substitution performed there;
client_id is an int or None (a non-int value would be the caller's type error
outside this model); timeout and sync_level hold the already-defaulted
self.timeout and self.sync_level. -/
structure Params where
  client_id : Option ℤ
  otp : String
  nonce : String
  timestamp : ℤ
  timeout : ℤ
  sync_level : ℤ
  deriving DecidableEq, Repr

/-- Python truthiness of an optional int: None and 0 are falsy. -/
def pyTruthyInt : Option ℤ → Bool
  | none => false
  | some n => n != 0

/-- Membership in the ModHex alphabet cbdefghijklnrtuv. -/
def isModhexChar (c : Char) : Bool :=
  ['c','b','d','e','f','g','h','i','j','k','l','n','r','t','u','v'].contains c

/-- The portion of a string a Python regex of the shape caret-CLASS-plus-dollar
must cover: the dollar anchor matches at the end of the string or just before a
single trailing newline, so the pattern matches s iff it matches the body of s
after stripping at most one trailing newline. -/
def reDollarBody (s : String) : String :=
  if s.toList.getLast? = some '\n' then s.dropRight 1 else s

/-- The regex match of line 387: re.match with caret-[cbdefghijklnrtuv]+-dollar
succeeds iff the body of the string (minus at most one trailing newline, which
the dollar anchor accepts) is nonempty and every character of it is ModHex. In
particular an otherwise-ModHex string with one trailing newline matches. -/
def isModhex (s : String) : Bool :=
  (reDollarBody s).length != 0 && (reDollarBody s).toList.all isModhexChar

/-- An ASCII alphanumeric character, as matched by [A-Za-z0-9]. -/
def isAlnumChar (c : Char) : Bool :=
  ('A' ≤ c && c ≤ 'Z') || ('a' ≤ c && c ≤ 'z') || ('0' ≤ c && c ≤ '9')

/-- The regex match of line 395: re.match with caret-[A-Za-z0-9]+-dollar
succeeds iff the body of the string (minus at most one trailing newline, which
the dollar anchor accepts) is nonempty and every character of it is
alphanumeric. In particular an otherwise-alphanumeric string with one trailing
newline matches. -/
def isAlnum (s : String) : Bool :=
  (reDollarBody s).length != 0 && (reDollarBody s).toList.all isAlnumChar

/-- Validator.check_parameters, lines 377-411. The isinstance checks on
client_id, timeout and sync_level hold by construction of the typed Params
record; the remaining conditions are translated in source order. An absent or
empty nonce is the falsy value of line 392. -/
def check_parameters (params : Params) : Except YKValError Unit :=
  if ¬(TOKEN_LEN ≤ params.otp.length ∧ params.otp.length ≤ OTP_MAX_LEN) then
    .error .BAD_OTP
  else if ¬isModhex params.otp = true then
    .error .BAD_OTP
  else if pyTruthyInt params.client_id = true ∧ params.nonce = "" then
    .error (.MISSING_PARAMETER "nonce")
  else if params.nonce ≠ "" ∧ ¬isAlnum params.nonce = true then
    .error (.INVALID_PARAMETER "nonce")
  else if params.nonce ≠ "" ∧ ¬(16 ≤ params.nonce.length ∧ params.nonce.length ≤ 40) then
    .error (.INVALID_PARAMETER "nonce")
  else if ¬(0 ≤ params.sync_level ∧ params.sync_level ≤ 100) then
    .error (.INVALID_PARAMETER "sync_level")
  else .ok ()

/-- Modelled from the spec: the KSM (the ykksm module or a remote server) is
external to src/. Spec section 4.2: decrypt(otp) returns a mapping with exactly
the keys counter, use, high and low, all non-negative integers parsed from hex.
Validator.decode_otp (lines 436-458) consumes exactly these keys at lines
452-455 and build_otp_params reads them at lines 467-470. -/
structure OtpInfo where
  counter : ℤ
  use : ℤ
  high : ℤ
  low : ℤ
  deriving DecidableEq, Repr

/-- Dictionary access into the decoded OTP mapping: only the four KSM keys are
present; any other key raises KeyError, modelled as none. -/
def otpInfoGet (info : OtpInfo) : String → Option ℤ
  | "counter" => some info.counter
  | "use" => some info.use
  | "high" => some info.high
  | "low" => some info.low
  | _ => none

/-- The outcome of Validator.decode_otp as seen by verify: either a decoded
mapping, or BAD_OTP (all configured KSM servers failed to decode, line 456), or
BACKEND_ERROR (no KSM service configured, line 458). -/
inductive KsmResult
  | found (info : OtpInfo)
  | badOtp
  | backendError
  deriving DecidableEq, Repr

/-- Validator.build_otp_params, lines 460-471. now is the int(time.time())
reading of line 463; the public name is otp[:-TOKEN_LEN]. -/
def build_otp_params (params : Params) (otp_info : OtpInfo) (now : ℤ) : OtpParams :=
  { modified := now
    otp := params.otp
    nonce := params.nonce
    yk_publicname := params.otp.dropRight TOKEN_LEN
    yk_counter := otp_info.counter
    yk_use := otp_info.use
    yk_high := otp_info.high
    yk_low := otp_info.low }

/-- The nonce substitution of line 606: nonce if nonce else server_nonce, where
an absent or empty client nonce is falsy. -/
def effective_nonce (nonce : Option String) (server_nonce : String) : String :=
  match nonce with
  | some s => if s = "" then server_nonce else s
  | none => server_nonce

/-- The params dictionary of Validator.verify lines 603-610. -/
def mkParams (otp : String) (client_id : Option ℤ) (nonce : Option String)
    (timestamp timeout sync_level : ℤ) (server_nonce : String) : Params :=
  { client_id := client_id
    otp := otp
    nonce := effective_nonce nonce server_nonce
    timestamp := timestamp
    timeout := timeout
    sync_level := sync_level }

/-- The response dictionary of a successful verify. The wall-clock time string
of line 662 is outside the model; sl is Option ℚ because the source can bind it
to None. The three timestamp keys are present only when requested. -/
structure VerifyResponse where
  status : String
  otp : String
  nonce : String
  sl : Option ℚ
  timestamp : Option ℤ
  sessioncounter : Option ℤ
  sessionuse : Option ℤ
  deriving DecidableEq, Repr

/-- A verify call either raises a YKValError or, when it hits a missing
dictionary key, a Python KeyError carrying the key. -/
inductive PyError
  | ykval (e : YKValError)
  | keyError (key : String)
  deriving DecidableEq, Repr

/-- Validator.verify, lines 553-665, with all effects made explicit: server_nonce
is the generated nonce, ksm the decode_otp outcome, rec the stored row that
get_local_params returns for otp[:-TOKEN_LEN] (the autovivified sentinel when the
key was unknown), n_servers the number of configured sync servers, arrived the
sibling responses arriving in time, tBuild the time reading of build_otp_params
and tPhish the one of phishing_test. The first component of the result is the
stored row after the call. -/
def verify (otp : String) (client_id : Option ℤ) (nonce : Option String)
    (timestamp timeout sync_level : ℤ) (server_nonce : String) (ksm : KsmResult)
    (rec : KeyRecord) (n_servers : ℕ) (arrived : List OtpParams)
    (tBuild tPhish : ℤ) : KeyRecord × Except PyError VerifyResponse :=
  let params := mkParams otp client_id nonce timestamp timeout sync_level server_nonce
  match check_parameters params with
  | .error e => (rec, .error (.ykval e))
  | .ok _ =>
    match ksm with
    | .badOtp => (rec, .error (.ykval .BAD_OTP))
    | .backendError => (rec, .error (.ykval .BACKEND_ERROR))
    | .found otp_info =>
      if ¬rec.active = true then (rec, .error (.ykval .DISABLED_TOKEN))
      else
        let otp_params := build_otp_params params otp_info tBuild
        match validate_otp otp_params rec with
        | .error e => (rec, .error (.ykval e))
        | .ok rec2 =>
          let rep := replicate n_servers sync_level otp_params rec2 arrived
          match rep.2 with
          | .error e => (rep.1, .error (.ykval e))
          | .ok slval =>
            match phishing_test otp_params rec tPhish with
            | .error e => (rep.1, .error (.ykval e))
            | .ok _ =>
              if timestamp = 1 then
                match otpInfoGet otp_info "yk_high" with
                | none => (rep.1, .error (.keyError "yk_high"))
                | some h =>
                  match otpInfoGet otp_info "yk_low" with
                  | none => (rep.1, .error (.keyError "yk_low"))
                  | some l =>
                    match otpInfoGet otp_info "yk_counter" with
                    | none => (rep.1, .error (.keyError "yk_counter"))
                    | some c =>
                      match otpInfoGet otp_info "yk_use" with
                      | none => (rep.1, .error (.keyError "yk_use"))
                      | some u =>
                        (rep.1, .ok
                          { status := "OK", otp := otp, nonce := params.nonce,
                            sl := slval, timestamp := some (h * 65536 + l),
                            sessioncounter := some c, sessionuse := some u })
              else
                (rep.1, .ok
                  { status := "OK", otp := otp, nonce := params.nonce, sl := slval,
                    timestamp := none, sessioncounter := none, sessionuse := none })

/-- A well-formed 44-character ModHex OTP: 12-character public name, 32-character
token part (all characters c). -/
def otpValid : String := String.mk (List.replicate 44 'c')

/-- A 31-character OTP, one below the minimum length. -/
def otp31 : String := String.mk (List.replicate 31 'c')

/-- A 49-character OTP, one above the maximum length. -/
def otp49 : String := String.mk (List.replicate 49 'c')

/-- A 44-character OTP: 43 ModHex characters and one trailing newline. The
newline is outside the ModHex alphabet, yet the line-387 regex accepts the
string because its dollar anchor matches before a trailing newline. -/
def otpNl : String := String.mk (List.replicate 43 'c' ++ ['\n'])

/-- A 16-character alphanumeric client nonce. -/
def nonceA : String := "abcdefab12345678"

/-- A 16-character alphanumeric server nonce. -/
def snA : String := "ABCDEFGHABCDEFGH"

/-- A decoded OTP: session counter 1, use 0, timestamp 0. -/
def infoW : OtpInfo := { counter := 1, use := 0, high := 0, low := 0 }

/-- The autovivified sentinel row for the public name of otpValid (see
DBH.get_local_params, lines 72-83). -/
def recSent : KeyRecord :=
  { active := true
    modified := -1
    yk_publicname := String.mk (List.replicate 12 'c')
    yk_counter := -1
    yk_use := -1
    yk_low := -1
    yk_high := -1
    nonce := "0000000000000000" }

/-- A sibling sync response for the same key carrying counters (2, 0), strictly
above the OTP counters (1, 0) of infoW: it proves replay. -/
def respB : OtpParams :=
  { modified := 5
    otp := ""
    nonce := "BBBBBBBBBBBBBBBB"
    yk_publicname := String.mk (List.replicate 12 'c')
    yk_counter := 2
    yk_use := 0
    yk_high := 0
    yk_low := 0 }

/-- OTP params whose counter tuple and nonce match recEq: an exact retransmit. -/
def oEq : OtpParams :=
  { modified := 9
    otp := ""
    nonce := nonceA
    yk_publicname := String.mk (List.replicate 12 'c')
    yk_counter := 3
    yk_use := 4
    yk_high := 0
    yk_low := 0 }

/-- A stored row with the same counter tuple and nonce as oEq. -/
def recEq : KeyRecord :=
  { active := true
    modified := 1
    yk_publicname := String.mk (List.replicate 12 'c')
    yk_counter := 3
    yk_use := 4
    yk_low := 0
    yk_high := 0
    nonce := nonceA }

/-- OTP params for the phishing witness: same session counter as recPh, token
timestamp 8 ticks (1 second), presented 60 wall-clock seconds later. -/
def oPh : OtpParams :=
  { modified := 60
    otp := ""
    nonce := ""
    yk_publicname := ""
    yk_counter := 5
    yk_use := 1
    yk_high := 0
    yk_low := 8 }

/-- Stored row for the phishing witness: same session counter, timestamp 0,
last modified at time 0. -/
def recPh : KeyRecord :=
  { active := true
    modified := 0
    yk_publicname := ""
    yk_counter := 5
    yk_use := 0
    yk_low := 0
    yk_high := 0
    nonce := "" }

/-- An inactive stored row, for the sync_local witness. -/
def recInactive : KeyRecord :=
  { active := false
    modified := 10
    yk_publicname := String.mk (List.replicate 12 'c')
    yk_counter := 1
    yk_use := 1
    yk_low := 0
    yk_high := 0
    nonce := "CCCCCCCCCCCCCCCC" }

/-- The otp_params that build_otp_params produces for otpValid, client nonce
nonceA and decoded counters infoW at time 7. -/
def oV : OtpParams :=
  { modified := 7
    otp := otpValid
    nonce := nonceA
    yk_publicname := String.mk (List.replicate 12 'c')
    yk_counter := 1
    yk_use := 0
    yk_high := 0
    yk_low := 0 }

/-! Bridging lemmas between the boolean comparison helpers and the lexicographic
order the spec talks about. -/

theorem counters_eq_iff (a b : Counters) :
    counters_eq a b = true ↔
      (a.yk_counter, a.yk_use) = (b.yk_counter, b.yk_use) := by
  simp [counters_eq, Prod.ext_iff]

theorem counters_gt_iff (a b : Counters) :
    counters_gt a b = true ↔ lexLt (b.yk_counter, b.yk_use) (a.yk_counter, a.yk_use) := by
  simp only [counters_gt, lexLt, Bool.or_eq_true, Bool.and_eq_true, decide_eq_true_eq,
    beq_iff_eq]
  constructor
  · rintro (h | ⟨h1, h2⟩)
    · exact Or.inl h
    · exact Or.inr ⟨h1.symm, h2⟩
  · rintro (h | ⟨h1, h2⟩)
    · exact Or.inl h
    · exact Or.inr ⟨h1.symm, h2⟩

theorem counters_gte_iff (a b : Counters) :
    counters_gte a b = true ↔ lexLe (b.yk_counter, b.yk_use) (a.yk_counter, a.yk_use) := by
  simp only [counters_gte, Bool.or_eq_true, counters_gt_iff, counters_eq_iff, lexLe,
    Prod.ext_iff, Prod.mk.injEq]
  constructor
  · rintro (h | ⟨h1, h2⟩)
    · exact Or.inl h
    · exact Or.inr ⟨h1.symm, h2.symm⟩
  · rintro (h | ⟨h1, h2⟩)
    · exact Or.inl h
    · exact Or.inr ⟨h1.symm, h2.symm⟩

theorem counters_gte_false_iff (a b : Counters) :
    counters_gte a b = false ↔ lexLt (a.yk_counter, a.yk_use) (b.yk_counter, b.yk_use) := by
  unfold counters_gte counters_gt counters_eq
  simp only [Bool.or_eq_false_iff, Bool.and_eq_false_iff, decide_eq_false_iff_not,
    not_lt, beq_eq_false_iff_ne, ne_eq, lexLt]
  omega

/-- The conditional update leaves the active flag untouched. -/
theorem update_db_counters_active (rec : KeyRecord) (p : OtpParams) :
    (update_db_counters rec p).active = rec.active := by
  unfold update_db_counters
  split <;> rfl

/-- When the stored tuple is lexicographically below the new tuple and the names
match, the conditional update overwrites the row. -/
theorem update_db_counters_applied (rec : KeyRecord) (p : OtpParams)
    (hname : rec.yk_publicname = p.yk_publicname)
    (hlt : lexLt (rec.yk_counter, rec.yk_use) (p.yk_counter, p.yk_use)) :
    update_db_counters rec p =
      { rec with
        modified := p.modified
        yk_counter := p.yk_counter
        yk_use := p.yk_use
        yk_low := p.yk_low
        yk_high := p.yk_high
        nonce := p.nonce } := by
  unfold update_db_counters
  rw [if_pos]
  simp only [Bool.and_eq_true, Bool.or_eq_true, beq_iff_eq, decide_eq_true_eq]
  refine ⟨hname, ?_⟩
  unfold lexLt at hlt
  rcases hlt with h | ⟨h1, h2⟩
  · exact Or.inl h
  · exact Or.inr ⟨h1, h2⟩

/-- When the stored tuple is not below the new tuple, the row is unchanged. -/
theorem update_db_counters_skipped (rec : KeyRecord) (p : OtpParams)
    (h : ¬lexLt (rec.yk_counter, rec.yk_use) (p.yk_counter, p.yk_use)) :
    update_db_counters rec p = rec := by
  unfold update_db_counters
  rw [if_neg]
  simp only [Bool.and_eq_true, Bool.or_eq_true, beq_iff_eq, decide_eq_true_eq]
  unfold lexLt at h
  push_neg at h
  rintro ⟨-, hor⟩
  rcases hor with h1 | ⟨h1, h2⟩
  · omega
  · have := h.2 h1
    omega

/-- The valid-answer count computed by the response loop: starting below the
quorum, it is the number of non-replay responses, capped at the quorum. -/
theorem sync_loop_count (o : OtpParams) (req : ℤ) (l : List OtpParams) :
    ∀ (rec : KeyRecord) (v : ℤ), v < req →
      (sync_loop o req l rec v).2 =
        min (v + (List.countP (fun r => !provesReplay r o) l : ℤ)) req := by
  induction l with
  | nil =>
    intro rec v hv
    simp only [sync_loop, List.countP_nil, Nat.cast_zero, add_zero]
    omega
  | cons r rs ih =>
    intro rec v hv
    by_cases hgt : counters_gt r.ctr o.ctr = true
    · have hpr : provesReplay r o = true := by
        unfold provesReplay
        rw [hgt]
        rfl
      simp only [sync_loop]
      rw [if_pos hgt, ih _ v hv, List.countP_cons]
      simp [hpr]
    · by_cases heqn : (counters_eq r.ctr o.ctr && r.nonce != o.nonce) = true
      · have hpr : provesReplay r o = true := by
          unfold provesReplay
          rw [heqn]
          simp
        simp only [sync_loop]
        rw [if_neg hgt, if_pos heqn, ih _ v hv, List.countP_cons]
        simp [hpr]
      · have hpr : provesReplay r o = false := by
          unfold provesReplay
          rw [Bool.or_eq_false_iff]
          exact ⟨by simpa using hgt, by simpa using heqn⟩
        have hcast : (List.countP (fun x => !provesReplay x o) (r :: rs) : ℤ) =
            (List.countP (fun x => !provesReplay x o) rs : ℤ) + 1 := by
          rw [List.countP_cons]
          simp [hpr]
        by_cases hbr : req = v + 1
        · simp only [sync_loop]
          rw [if_neg hgt, if_neg heqn, if_pos hbr, hcast]
          have hcnt0 : (0 : ℤ) ≤ (List.countP (fun x => !provesReplay x o) rs : ℤ) := by
            positivity
          omega
        · simp only [sync_loop]
          rw [if_neg hgt, if_neg heqn, if_neg hbr, ih _ (v + 1) (by omega), hcast]
          omega

/-- When no collected response can overwrite the stored row, the response loop
leaves the row unchanged. -/
theorem sync_loop_state (o : OtpParams) (req : ℤ) (l : List OtpParams) :
    ∀ (rec : KeyRecord) (v : ℤ), (∀ r ∈ l, update_db_counters rec r = rec) →
      (sync_loop o req l rec v).1 = rec := by
  induction l with
  | nil => intro rec v _; rfl
  | cons r rs ih =>
    intro rec v hup
    have h0 : update_db_counters rec r = rec := hup r (by simp)
    have hrest : ∀ x ∈ rs, update_db_counters rec x = rec := by
      intro x hx; exact hup x (by simp [hx])
    simp only [sync_loop, h0]
    split
    · exact ih rec v hrest
    · split
      · exact ih rec v hrest
      · split
        · rfl
        · exact ih rec (v + 1) hrest

/-- C1. For every verify call that reaches the local replay check (decryption
succeeded and the stored record is active): if the stored counter tuple equals
the OTP's tuple and the stored nonce equals the request nonce, the check fails
with REPLAYED_REQUEST; otherwise, if the stored tuple is lexicographically
greater than or equal to the OTP's tuple, it fails with REPLAYED_OTP; otherwise
the conditional counter update is applied and the call proceeds. -/
theorem C1_local_replay_check (o : OtpParams) (l : KeyRecord) :
    ((l.yk_counter, l.yk_use) = (o.yk_counter, o.yk_use) ∧ l.nonce = o.nonce →
      validate_otp o l = .error .REPLAYED_REQUEST) ∧
    (¬((l.yk_counter, l.yk_use) = (o.yk_counter, o.yk_use) ∧ l.nonce = o.nonce) →
      lexLe (o.yk_counter, o.yk_use) (l.yk_counter, l.yk_use) →
      validate_otp o l = .error .REPLAYED_OTP) ∧
    (¬lexLe (o.yk_counter, o.yk_use) (l.yk_counter, l.yk_use) →
      validate_otp o l = .ok (update_db_counters l o)) := by
  refine ⟨?_, ?_, ?_⟩
  · rintro ⟨h1, h2⟩
    have hc : (counters_eq l.ctr o.ctr && l.nonce == o.nonce) = true := by
      simp only [Bool.and_eq_true, beq_iff_eq]
      exact ⟨(counters_eq_iff l.ctr o.ctr).mpr h1, h2⟩
    unfold validate_otp
    rw [if_pos hc]
  · intro h1 h2
    have hc : ¬(counters_eq l.ctr o.ctr && l.nonce == o.nonce) = true := by
      simp only [Bool.and_eq_true, beq_iff_eq, counters_eq_iff]
      exact fun hc => h1 ⟨hc.1, hc.2⟩
    unfold validate_otp
    rw [if_neg hc, if_pos ((counters_gte_iff l.ctr o.ctr).mpr h2)]
  · intro h
    have hgte : ¬counters_gte l.ctr o.ctr = true := by
      rw [counters_gte_iff]
      exact h
    have heq : ¬(counters_eq l.ctr o.ctr && l.nonce == o.nonce) = true := by
      simp only [Bool.and_eq_true, beq_iff_eq, counters_eq_iff]
      rintro ⟨hc, -⟩
      apply h
      right
      simpa [Prod.ext_iff] using hc.symm
    unfold validate_otp
    rw [if_neg heq, if_neg hgte]

/-- C1 witness: an exact retransmit (equal tuple, equal nonce) is rejected as
REPLAYED_REQUEST. -/
theorem C1_local_replay_check_witness :
    validate_otp oEq recEq = .error .REPLAYED_REQUEST :=
  (C1_local_replay_check oEq recEq).1 ⟨by decide, by decide⟩

/-- C2. For every stored key record and every update attempted through the
counter store, the stored (yk_counter, yk_use) pair is overwritten only when the
new pair is strictly greater in lexicographic order (and the row is the one
named); otherwise the stored row is unchanged. Hence the stored counter tuple
never decreases. -/
theorem C2_counter_monotonicity (rec : KeyRecord) (p : OtpParams) :
    (rec.yk_publicname = p.yk_publicname →
      lexLt (rec.yk_counter, rec.yk_use) (p.yk_counter, p.yk_use) →
      (update_db_counters rec p).yk_counter = p.yk_counter ∧
      (update_db_counters rec p).yk_use = p.yk_use ∧
      (update_db_counters rec p).nonce = p.nonce) ∧
    (¬lexLt (rec.yk_counter, rec.yk_use) (p.yk_counter, p.yk_use) →
      update_db_counters rec p = rec) ∧
    lexLe (rec.yk_counter, rec.yk_use)
      ((update_db_counters rec p).yk_counter, (update_db_counters rec p).yk_use) := by
  refine ⟨?_, update_db_counters_skipped rec p, ?_⟩
  · intro hname hlt
    rw [update_db_counters_applied rec p hname hlt]
    exact ⟨rfl, rfl, rfl⟩
  · by_cases hc : (rec.yk_publicname == p.yk_publicname &&
        (decide (rec.yk_counter < p.yk_counter) ||
          (rec.yk_counter == p.yk_counter && decide (rec.yk_use < p.yk_use)))) = true
    · unfold update_db_counters
      rw [if_pos hc]
      simp only [Bool.and_eq_true, Bool.or_eq_true, beq_iff_eq, decide_eq_true_eq] at hc
      left
      unfold lexLt
      rcases hc.2 with h | ⟨h1, h2⟩
      · exact Or.inl h
      · exact Or.inr ⟨h1, h2⟩
    · unfold update_db_counters
      rw [if_neg hc]
      right
      rfl

/-- C2 witness: the sentinel row (-1, -1) is overwritten by counters (2, 0) of a
matching-name update. -/
theorem C2_counter_monotonicity_witness :
    (update_db_counters recSent respB).yk_counter = 2 ∧
    (update_db_counters recSent respB).yk_use = 0 ∧
    (update_db_counters recSent respB).nonce = "BBBBBBBBBBBBBBBB" :=
  (C2_counter_monotonicity recSent respB).1 (by decide) (by decide)

/-- C9. For every sync_local call with well-formed required parameters (the
typed record) whose local record is inactive, the conditional counter update is
applied to the store first and the call then fails with DISABLED_TOKEN, so the
stored counters converge to the sibling's values even for a disabled key. -/
theorem C9_sync_local_disabled (rec : KeyRecord) (p : OtpParams)
    (h : rec.active = false) :
    sync_local rec p = (update_db_counters rec p, .error .DISABLED_TOKEN) := by
  unfold sync_local
  rw [if_pos]
  rw [h]
  rfl

/-- C9 witness: a disabled key still converges to the sibling's higher counters
before DISABLED_TOKEN is raised. -/
theorem C9_sync_local_disabled_witness :
    sync_local recInactive respB =
      (update_db_counters recInactive respB, .error .DISABLED_TOKEN) ∧
    (update_db_counters recInactive respB).yk_counter = 2 :=
  ⟨C9_sync_local_disabled recInactive respB (by decide), by decide⟩

/-- An if-then-else over Except yields the error exactly when the condition
holds. -/
theorem error_ite_iff (c : Prop) [inst : Decidable c] (e : YKValError) :
    ((if c then (Except.error e : Except YKValError Unit) else Except.ok ()) =
      Except.error e) ↔ c := by
  split_ifs with h
  · exact iff_of_true rfl h
  · exact iff_of_false (by simp) h

/-- C3. In the replication step, with n_servers configured siblings and sync
level sync_level, the quorum is Q = round(n_servers * sync_level / 100); if
Q = 0 the step succeeds without contacting siblings; otherwise, if any collected
sibling response proved replay, replication fails with REPLAYED_OTP, and if the
quorum of valid answers is not met without any replay proof it fails with
NOT_ENOUGH_ANSWERS. The collected responses are the prefix of length at most Q
of the arriving stream. -/
theorem C3_replication_quorum (n_servers : ℕ) (sync_level : ℤ) (o : OtpParams)
    (rec : KeyRecord) (arrived : List OtpParams) :
    (req_answers n_servers sync_level = 0 →
      (replicate n_servers sync_level o rec arrived).2 = .ok none) ∧
    (req_answers n_servers sync_level ≠ 0 →
      (∃ r ∈ arrived.take (req_answers n_servers sync_level).toNat,
          provesReplay r o = true) →
      (replicate n_servers sync_level o rec arrived).2 = .error .REPLAYED_OTP) ∧
    (req_answers n_servers sync_level ≠ 0 →
      (∀ r ∈ arrived.take (req_answers n_servers sync_level).toNat,
          ¬provesReplay r o = true) →
      ((arrived.take (req_answers n_servers sync_level).toNat).length : ℤ) <
        req_answers n_servers sync_level →
      (replicate n_servers sync_level o rec arrived).2 = .error .NOT_ENOUGH_ANSWERS) := by
  refine ⟨?_, ?_, ?_⟩
  · intro h
    unfold replicate
    rw [if_pos h]
  · intro hq hex
    obtain ⟨r, hr, hpr⟩ := hex
    have hlenle : (arrived.take (req_answers n_servers sync_level).toNat).length ≤
        (req_answers n_servers sync_level).toNat := by
      simp [List.length_take]
    have hpos : 0 < (arrived.take (req_answers n_servers sync_level).toNat).length :=
      List.length_pos.mpr (List.ne_nil_of_mem hr)
    have hq0 : 0 < req_answers n_servers sync_level := by omega
    have hcount := sync_loop_count o (req_answers n_servers sync_level)
      (arrived.take (req_answers n_servers sync_level).toNat) rec 0 hq0
    have hcle := List.countP_le_length (fun x => !provesReplay x o)
      (l := arrived.take (req_answers n_servers sync_level).toNat)
    have hclt : List.countP (fun x => !provesReplay x o)
        (arrived.take (req_answers n_servers sync_level).toNat) <
        (arrived.take (req_answers n_servers sync_level).toNat).length := by
      rcases lt_or_eq_of_le hcle with h | h
      · exact h
      · exfalso
        rw [List.countP_eq_length] at h
        have := h r hr
        simp [hpr] at this
    simp only [replicate, sync_remote]
    rw [if_neg hq, hcount]
    rw [if_neg (by omega), if_pos (by omega)]
  · intro hq hall hlt
    have hq0 : 0 < req_answers n_servers sync_level := by omega
    have hcount := sync_loop_count o (req_answers n_servers sync_level)
      (arrived.take (req_answers n_servers sync_level).toNat) rec 0 hq0
    have hceq : List.countP (fun x => !provesReplay x o)
        (arrived.take (req_answers n_servers sync_level).toNat) =
        (arrived.take (req_answers n_servers sync_level).toNat).length := by
      rw [List.countP_eq_length]
      intro r hr
      have hfr := hall r hr
      show (!provesReplay r o) = true
      rcases hb : provesReplay r o with _ | _
      · rfl
      · exact absurd hb hfr
    simp only [replicate, sync_remote]
    rw [if_neg hq, hcount, hceq]
    rw [if_neg (by omega), if_neg (by omega)]

/-- C3 witness: with one sibling and sync level 100 the quorum is 1, and a
collected response carrying higher counters makes replication fail with
REPLAYED_OTP. -/
theorem C3_replication_quorum_witness :
    (replicate 1 100 oV recSent [respB]).2 = .error .REPLAYED_OTP :=
  (C3_replication_quorum 1 100 oV recSent [respB]).2.1 (by decide)
    ⟨respB, by decide, by decide⟩

/-- C4. The phishing/timing test runs only when the OTP's session counter equals
the stored session counter; in that case, with
token_delta = (new_ts - old_ts) * TS_SEC for the 16-bit-shifted timestamps,
wall_elapsed = now - stored modified, deviation = |wall_elapsed - token_delta|
and percent = deviation / wall_elapsed (1 when wall_elapsed = 0), it fails with
DELAYED_OTP iff deviation > TS_ABS_TOLERANCE and percent > TS_REL_TOLERANCE.
The yk_high/yk_low fields are 16-bit values, for which the or of the shifted
high part with the low part equals their sum, which is the form used here. -/
theorem C4_phishing_test (o : OtpParams) (l : KeyRecord) (now : ℤ) :
    (o.yk_counter ≠ l.yk_counter → phishing_test o l now = .ok ()) ∧
    (o.yk_counter = l.yk_counter →
      (phishing_test o l now = .error .DELAYED_OTP ↔
        (let token_delta : ℚ :=
          ((o.yk_high * 65536 + o.yk_low - (l.yk_high * 65536 + l.yk_low) : ℤ) : ℚ) * TS_SEC
         let wall_elapsed : ℤ := now - l.modified
         let deviation : ℚ := |((wall_elapsed : ℤ) : ℚ) - token_delta|
         let percent : ℚ :=
           if wall_elapsed ≠ 0 then deviation / ((wall_elapsed : ℤ) : ℚ) else 1
         TS_ABS_TOLERANCE < deviation ∧ TS_REL_TOLERANCE < percent))) := by
  constructor
  · intro h
    unfold phishing_test
    rw [if_pos h]
  · intro h
    have hne : ¬o.yk_counter ≠ l.yk_counter := by simpa using h
    unfold phishing_test
    rw [if_neg hne]
    rw [error_ite_iff]

/-- C4 witness: same session counter, token clock advanced 1 second but 60
wall-clock seconds elapsed: deviation 59 > 20 and percent 59/60 > 0.3, so the
OTP fails the phishing test. -/
theorem C4_phishing_test_witness :
    phishing_test oPh recPh 60 = .error .DELAYED_OTP :=
  ((C4_phishing_test oPh recPh 60).2 rfl).mpr
    (by simp only [oPh, recPh, TS_ABS_TOLERANCE, TS_REL_TOLERANCE, TS_SEC]; norm_num)

/-- A malformed OTP (bad length, or a body — after stripping at most one
trailing newline, which the regex's dollar anchor ignores — that is empty or
contains a character outside the ModHex alphabet) fails the parameter check with
BAD_OTP. -/
theorem check_parameters_bad_otp (p : Params)
    (h : p.otp.length < TOKEN_LEN ∨ OTP_MAX_LEN < p.otp.length ∨
      (reDollarBody p.otp).length = 0 ∨
      ∃ c ∈ (reDollarBody p.otp).toList, ¬isModhexChar c = true) :
    check_parameters p = .error .BAD_OTP := by
  unfold check_parameters
  by_cases hlen : TOKEN_LEN ≤ p.otp.length ∧ p.otp.length ≤ OTP_MAX_LEN
  · have hbad : ¬isModhex p.otp = true := by
      rcases h with h | h | h | ⟨c, hc, hbadc⟩
      · omega
      · omega
      · simp [isModhex, h]
      · simp only [isModhex, Bool.and_eq_true, List.all_eq_true]
        rintro ⟨-, hall⟩
        exact hbadc (hall c hc)
    rw [if_neg (not_not_intro hlen), if_pos hbad]
  · rw [if_pos hlen]

/-- C8 (amended). For every verify call, if the otp argument has length outside
[TOKEN_LEN, OTP_MAX_LEN], or if its body — the string minus at most one trailing
newline, which the line-387 regex's dollar anchor ignores — is empty or contains
any character outside the ModHex alphabet, the call fails with BAD_OTP before
any decryption or state access: the result is the same for every KSM outcome,
stored row, sibling trace and clock reading, and the stored row is returned
unchanged. In particular an OTP of length 31 or 49 yields BAD_OTP. (An
otherwise-ModHex OTP carrying a single trailing newline passes the check
instead — see the counterexample.) -/
theorem C8_bad_otp_rejected (otp : String)
    (h : otp.length < TOKEN_LEN ∨ OTP_MAX_LEN < otp.length ∨
      (reDollarBody otp).length = 0 ∨
      ∃ c ∈ (reDollarBody otp).toList, ¬isModhexChar c = true) :
    ∀ (client_id : Option ℤ) (nonce : Option String) (timestamp timeout sync_level : ℤ)
      (server_nonce : String) (ksm : KsmResult) (rec : KeyRecord) (n_servers : ℕ)
      (arrived : List OtpParams) (tBuild tPhish : ℤ),
      verify otp client_id nonce timestamp timeout sync_level server_nonce ksm rec
        n_servers arrived tBuild tPhish = (rec, .error (.ykval .BAD_OTP)) := by
  intro client_id nonce timestamp timeout sync_level server_nonce ksm rec n_servers
    arrived tBuild tPhish
  have hp : check_parameters
      (mkParams otp client_id nonce timestamp timeout sync_level server_nonce) =
      .error .BAD_OTP := by
    apply check_parameters_bad_otp
    simpa [mkParams] using h
  simp only [verify]
  rw [hp]

/-- C8 witness: OTPs of length 31 and 49 are rejected as BAD_OTP with the
stored row untouched. -/
theorem C8_bad_otp_rejected_witness :
    verify otp31 none none 0 1 50 snA .badOtp recSent 0 [] 0 0 =
      (recSent, .error (.ykval .BAD_OTP)) ∧
    verify otp49 none none 0 1 50 snA .badOtp recSent 0 [] 0 0 =
      (recSent, .error (.ykval .BAD_OTP)) :=
  ⟨C8_bad_otp_rejected otp31 (Or.inl (by decide))
      none none 0 1 50 snA .badOtp recSent 0 [] 0 0,
   C8_bad_otp_rejected otp49 (Or.inr (Or.inl (by decide)))
      none none 0 1 50 snA .badOtp recSent 0 [] 0 0⟩

set_option maxRecDepth 40000 in
/-- C8 counterexample: the 44-character OTP of 43 ModHex characters plus one
trailing newline contains a character outside the ModHex alphabet, yet the call
does not fail with BAD_OTP: the line-387 regex accepts it (Python's dollar
anchor matches before a trailing newline), the OTP reaches decryption, and the
call succeeds with the stored counters updated from the sentinel to the OTP's. -/
theorem C8_counterexample_trailing_newline :
    (verify otpNl none (some nonceA) 0 1 50 snA (.found infoW) recSent 0 [] 7 9).2 =
      .ok { status := "OK", otp := otpNl, nonce := nonceA, sl := none,
            timestamp := none, sessioncounter := none, sessionuse := none } ∧
    (verify otpNl none (some nonceA) 0 1 50 snA (.found infoW) recSent 0 [] 7 9).1.yk_counter
      = 1 :=
  ⟨rfl, rfl⟩

/-- C5. Evaluating the code on a succeeding verify call: the response maps sl to
None (replicate has no return statement, so line 643 binds None and line 655
stores it), not to the numeric sync-level success rate the spec promises (0 here,
with quorum 0). -/
theorem C5_sl_is_none :
    (verify otpValid none (some nonceA) 0 1 50 snA (.found infoW) recSent 0 [] 7 9).2 =
      .ok { status := "OK", otp := otpValid, nonce := nonceA, sl := none,
            timestamp := none, sessioncounter := none, sessionuse := none } := by
  rfl

/-- C6. Evaluating the code on a verify call with timestamp = 1 that reaches
step 6: the decoded OTP mapping only has the keys counter, use, high and low, so
line 657 raises KeyError for the key yk_high instead of returning the timestamp
fields the spec promises. -/
theorem C6_timestamp_keyerror :
    (verify otpValid none (some nonceA) 1 1 50 snA (.found infoW) recSent 0 [] 7 9).2 =
      .error (.keyError "yk_high") := by
  rfl

/-- A parameter bag whose nonce is nonempty never fails the check with
MISSING_PARAMETER: the only MISSING branch requires an empty nonce. -/
theorem check_parameters_no_missing (p : Params) (hn : p.nonce ≠ "") (s : String) :
    check_parameters p ≠ .error (.MISSING_PARAMETER s) := by
  unfold check_parameters
  split_ifs with h1 h2 h3 h4 h5 h6 <;> simp_all

/-- validate_otp only raises the two replay errors. -/
theorem validate_otp_no_missing (o : OtpParams) (l : KeyRecord) (s : String) :
    validate_otp o l ≠ .error (.MISSING_PARAMETER s) := by
  unfold validate_otp
  split_ifs <;> simp

/-- replicate only raises REPLAYED_OTP or NOT_ENOUGH_ANSWERS. -/
theorem replicate_no_missing (n_servers : ℕ) (sync_level : ℤ) (o : OtpParams)
    (rec : KeyRecord) (arr : List OtpParams) (s : String) :
    (replicate n_servers sync_level o rec arr).2 ≠ .error (.MISSING_PARAMETER s) := by
  simp only [replicate, sync_remote]
  split_ifs <;> simp

/-- phishing_test only raises DELAYED_OTP. -/
theorem phishing_test_no_missing (o : OtpParams) (l : KeyRecord) (now : ℤ) (s : String) :
    phishing_test o l now ≠ .error (.MISSING_PARAMETER s) := by
  have h : ∀ (c1 c2 : Prop) (i1 : Decidable c1) (i2 : Decidable c2),
      (if c1 then (Except.ok () : Except YKValError Unit)
       else if c2 then Except.error YKValError.DELAYED_OTP else Except.ok ()) ≠
        Except.error (YKValError.MISSING_PARAMETER s) := by
    intro c1 c2 i1 i2
    split_ifs <;> simp
  exact h _ _ _ _

/-- The decoded OTP mapping has no key named yk_high. -/
theorem otpInfoGet_yk_high (info : OtpInfo) : otpInfoGet info "yk_high" = none := rfl

/-- A verify call whose effective nonce is nonempty never fails with
MISSING_PARAMETER: no later pipeline stage can raise it. -/
theorem verify_no_missing (otp : String) (cid : Option ℤ) (nonce : Option String)
    (ts tmo sl : ℤ) (sn : String) (ksm : KsmResult) (rec : KeyRecord) (n_servers : ℕ)
    (arr : List OtpParams) (t1 t2 : ℤ) (s : String)
    (hn : (mkParams otp cid nonce ts tmo sl sn).nonce ≠ "") :
    (verify otp cid nonce ts tmo sl sn ksm rec n_servers arr t1 t2).2 ≠
      .error (.ykval (.MISSING_PARAMETER s)) := by
  intro hco
  simp only [verify] at hco
  split at hco
  · rename_i e heq
    simp only [Except.error.injEq, PyError.ykval.injEq] at hco
    rw [hco] at heq
    exact check_parameters_no_missing _ hn s heq
  · split at hco
    · simp at hco
    · simp at hco
    · rename_i info
      split at hco
      · simp at hco
      · split at hco
        · rename_i e heq
          simp only [Except.error.injEq, PyError.ykval.injEq] at hco
          rw [hco] at heq
          exact validate_otp_no_missing _ _ s heq
        · rename_i rec2 heq
          split at hco
          · rename_i e heq2
            simp only [Except.error.injEq, PyError.ykval.injEq] at hco
            rw [hco] at heq2
            exact replicate_no_missing _ _ _ _ _ s heq2
          · rename_i slv heq2
            split at hco
            · rename_i e heq3
              simp only [Except.error.injEq, PyError.ykval.injEq] at hco
              rw [hco] at heq3
              exact phishing_test_no_missing _ _ _ s heq3
            · rename_i u2 heq3
              split at hco
              · rw [otpInfoGet_yk_high] at hco
                simp at hco
              · simp at hco

/-- When the local replay check passes (the stored tuple is not gte the OTP
tuple), validate_otp commits the conditional update. -/
theorem validate_otp_of_gte_false (o : OtpParams) (l : KeyRecord)
    (h : counters_gte l.ctr o.ctr = false) :
    validate_otp o l = .ok (update_db_counters l o) := by
  have heq : counters_eq l.ctr o.ctr = false := by
    have h2 := h
    simp only [counters_gte, Bool.or_eq_false_iff] at h2
    exact h2.2
  unfold validate_otp
  rw [if_neg (by simp [heq]), if_neg (by simp [h])]

/-- When no collected sibling response can overwrite the stored row, replication
leaves the row unchanged (whatever its outcome). -/
theorem replicate_state_preserved (n_servers : ℕ) (sync_level : ℤ) (o : OtpParams)
    (rec : KeyRecord) (arr : List OtpParams)
    (h : ∀ r ∈ arr.take (req_answers n_servers sync_level).toNat,
      update_db_counters rec r = rec) :
    (replicate n_servers sync_level o rec arr).1 = rec := by
  simp only [replicate, sync_remote]
  split_ifs with h1 h2 h3
  · rfl
  · exact sync_loop_state o _ _ rec 0 h
  · exact sync_loop_state o _ _ rec 0 h
  · exact sync_loop_state o _ _ rec 0 h

/-- After a verify call that passes the parameter check, the active check and
the local replay check, and whose collected sibling responses carry no counters
above the OTP's, the stored row is exactly the conditional update applied to the
fetched row — whether the call then succeeds or fails. -/
theorem verify_state_after (otp : String) (cid : Option ℤ) (nonce : Option String)
    (ts tmo sl : ℤ) (sn : String) (info : OtpInfo) (rec : KeyRecord) (n_servers : ℕ)
    (arr : List OtpParams) (t1 t2 : ℤ)
    (hname : rec.yk_publicname = otp.dropRight TOKEN_LEN)
    (hcheck : check_parameters (mkParams otp cid nonce ts tmo sl sn) = .ok ())
    (hactive : rec.active = true)
    (hval : counters_gte rec.ctr
      (build_otp_params (mkParams otp cid nonce ts tmo sl sn) info t1).ctr = false)
    (hnogt : ∀ r ∈ arr.take (req_answers n_servers sl).toNat,
      ¬counters_gt r.ctr
        (build_otp_params (mkParams otp cid nonce ts tmo sl sn) info t1).ctr = true) :
    (verify otp cid nonce ts tmo sl sn (.found info) rec n_servers arr t1 t2).1 =
      update_db_counters rec
        (build_otp_params (mkParams otp cid nonce ts tmo sl sn) info t1) := by
  have hvo := validate_otp_of_gte_false
    (build_otp_params (mkParams otp cid nonce ts tmo sl sn) info t1) rec hval
  have hname2 : rec.yk_publicname =
      (build_otp_params (mkParams otp cid nonce ts tmo sl sn) info t1).yk_publicname := by
    simp only [build_otp_params, mkParams]
    exact hname
  have happ := update_db_counters_applied rec
    (build_otp_params (mkParams otp cid nonce ts tmo sl sn) info t1)
    hname2 ((counters_gte_false_iff _ _).mp hval)
  have hno : ∀ r ∈ arr.take (req_answers n_servers sl).toNat,
      update_db_counters
        (update_db_counters rec (build_otp_params (mkParams otp cid nonce ts tmo sl sn) info t1))
        r =
      update_db_counters rec (build_otp_params (mkParams otp cid nonce ts tmo sl sn) info t1) := by
    intro r hr
    apply update_db_counters_skipped
    rw [happ]
    have hgt := hnogt r hr
    rw [counters_gt_iff] at hgt
    exact hgt
  have hpres := replicate_state_preserved n_servers sl
    (build_otp_params (mkParams otp cid nonce ts tmo sl sn) info t1)
    (update_db_counters rec (build_otp_params (mkParams otp cid nonce ts tmo sl sn) info t1))
    arr hno
  simp only [verify, hcheck, hvo]
  rw [if_neg (not_not_intro hactive)]
  split
  · exact hpres
  · split
    · exact hpres
    · split
      · rw [otpInfoGet_yk_high]
        exact hpres
      · exact hpres

/-- A verify call against a stored row whose counter tuple and nonce already
match the decoded OTP and request nonce fails with REPLAYED_REQUEST. -/
theorem verify_replayed_request (otp : String) (cid : Option ℤ) (s : String)
    (ts tmo sl : ℤ) (sn2 : String) (info : OtpInfo) (rec2 : KeyRecord) (n_servers : ℕ)
    (arr2 : List OtpParams) (t3 t4 : ℤ)
    (hs : s ≠ "")
    (hcheck2 : check_parameters (mkParams otp cid (some s) ts tmo sl sn2) = .ok ())
    (hact2 : rec2.active = true)
    (hc : rec2.yk_counter = info.counter) (hu : rec2.yk_use = info.use)
    (hnn : rec2.nonce = s) :
    (verify otp cid (some s) ts tmo sl sn2 (.found info) rec2 n_servers arr2 t3 t4).2 =
      .error (.ykval .REPLAYED_REQUEST) := by
  have hcond : (counters_eq rec2.ctr
      (build_otp_params (mkParams otp cid (some s) ts tmo sl sn2) info t3).ctr &&
      rec2.nonce ==
        (build_otp_params (mkParams otp cid (some s) ts tmo sl sn2) info t3).nonce) = true := by
    simp only [Bool.and_eq_true, beq_iff_eq]
    constructor
    · rw [counters_eq_iff]
      show (rec2.yk_counter, rec2.yk_use) = (info.counter, info.use)
      rw [hc, hu]
    · show rec2.nonce = (if s = "" then sn2 else s)
      rw [hnn, if_neg hs]
  have hvr : validate_otp (build_otp_params (mkParams otp cid (some s) ts tmo sl sn2) info t3)
      rec2 = .error .REPLAYED_REQUEST := by
    unfold validate_otp
    rw [if_pos hcond]
  simp only [verify, hcheck2, hvr]
  rw [if_neg (not_not_intro hact2)]

/-- C7 counterexample: a verify call with client_id given and no nonce supplied
does not fail with MISSING_PARAMETER; the generated server nonce is substituted
before the check (line 606), and the call here succeeds outright. -/
theorem C7_counterexample_no_missing :
    (verify otpValid (some 1) none 0 1 50 nonceA (.found infoW) recSent 0 [] 7 9).2 =
      .ok { status := "OK", otp := otpValid, nonce := nonceA, sl := none,
            timestamp := none, sessioncounter := none, sessionuse := none } := by
  rfl

/-- C7 (amended). check_parameters raises MISSING_PARAMETER for an empty nonce
with a truthy client_id (and a well-formed OTP, which is checked first); but
verify substitutes the generated server nonce — a 16-40 character alphanumeric
string per spec section 4.7 — for a missing client nonce before the check, so a
verify call with client_id given and no nonce never fails with
MISSING_PARAMETER. A verify call that supplies a nonce failing the source's
checks — one whose body after stripping at most one trailing newline (which the
line-395 regex's dollar anchor accepts) is empty or contains a non-alphanumeric
character, or whose full length lies outside 16-40 — fails with
INVALID_PARAMETER (with a well-formed OTP, which is checked first). A nonce of
15 alphanumeric characters plus one trailing newline passes both checks and is
accepted. -/
theorem C7_amended_nonce_rules :
    (∀ p : Params, pyTruthyInt p.client_id = true → p.nonce = "" →
      TOKEN_LEN ≤ p.otp.length → p.otp.length ≤ OTP_MAX_LEN → isModhex p.otp = true →
      check_parameters p = .error (.MISSING_PARAMETER "nonce")) ∧
    (∀ (otp : String) (cid : Option ℤ) (ts tmo sl : ℤ) (sn : String) (ksm : KsmResult)
      (rec : KeyRecord) (n_servers : ℕ) (arr : List OtpParams) (t1 t2 : ℤ),
      isAlnum sn = true → 16 ≤ sn.length → sn.length ≤ 40 →
      (verify otp cid none ts tmo sl sn ksm rec n_servers arr t1 t2).2 ≠
        .error (.ykval (.MISSING_PARAMETER "nonce"))) ∧
    (∀ (otp : String) (cid : Option ℤ) (s : String) (ts tmo sl : ℤ) (sn : String)
      (ksm : KsmResult) (rec : KeyRecord) (n_servers : ℕ) (arr : List OtpParams) (t1 t2 : ℤ),
      s ≠ "" → ¬(isAlnum s = true ∧ 16 ≤ s.length ∧ s.length ≤ 40) →
      TOKEN_LEN ≤ otp.length → otp.length ≤ OTP_MAX_LEN → isModhex otp = true →
      (verify otp cid (some s) ts tmo sl sn ksm rec n_servers arr t1 t2).2 =
        .error (.ykval (.INVALID_PARAMETER "nonce"))) := by
  refine ⟨?_, ?_, ?_⟩
  · intro p h1 h2 h3 h4 h5
    unfold check_parameters
    rw [if_neg (not_not_intro ⟨h3, h4⟩), if_neg (not_not_intro h5), if_pos ⟨h1, h2⟩]
  · intro otp cid ts tmo sl sn ksm rec n_servers arr t1 t2 _ h16 _
    apply verify_no_missing
    show sn ≠ ""
    intro h
    rw [h] at h16
    exact absurd h16 (by decide)
  · intro otp cid s ts tmo sl sn ksm rec n_servers arr t1 t2 hs hbad h3 h4 h5
    have hps : (mkParams otp cid (some s) ts tmo sl sn).nonce = s := by
      simp [mkParams, effective_nonce, hs]
    have hpo : (mkParams otp cid (some s) ts tmo sl sn).otp = otp := by
      simp [mkParams]
    have hcheck : check_parameters (mkParams otp cid (some s) ts tmo sl sn) =
        .error (.INVALID_PARAMETER "nonce") := by
      unfold check_parameters
      rw [hps, hpo]
      rw [if_neg (not_not_intro ⟨h3, h4⟩), if_neg (not_not_intro h5),
        if_neg (fun h => hs h.2)]
      by_cases halnum : isAlnum s = true
      · have hlen : ¬(16 ≤ s.length ∧ s.length ≤ 40) :=
          fun hl => hbad ⟨halnum, hl.1, hl.2⟩
        rw [if_neg (fun h => h.2 halnum), if_pos ⟨hs, hlen⟩]
      · rw [if_pos ⟨hs, halnum⟩]
    simp only [verify]
    rw [hcheck]

/-- C7 witness: a supplied 5-character nonce is rejected with INVALID_PARAMETER. -/
theorem C7_amended_nonce_rules_witness :
    (verify otpValid none (some "short") 0 1 50 snA .badOtp recSent 0 [] 0 0).2 =
      .error (.ykval (.INVALID_PARAMETER "nonce")) :=
  C7_amended_nonce_rules.2.2 otpValid none "short" 0 1 50 snA .badOtp recSent 0 [] 0 0
    (by decide) (by decide) (by decide) (by decide) (by decide)

set_option maxRecDepth 40000 in
/-- C10 counterexample: first call with one sibling whose collected response
carries counters (2, 0), above the OTP's (1, 0): verify fails with REPLAYED_OTP,
but the stored counters end at the sibling's (2, 0) — not at the OTP's values —
and retrying the identical OTP and nonce then fails with REPLAYED_OTP, not
REPLAYED_REQUEST as the claim asserts. -/
theorem C10_counterexample_sibling_advance :
    ((verify otpValid none (some nonceA) 0 1 100 snA (.found infoW) recSent 1 [respB] 7 9).2 =
      .error (.ykval .REPLAYED_OTP)) ∧
    (((verify otpValid none (some nonceA) 0 1 100 snA (.found infoW) recSent
        1 [respB] 7 9).1.yk_counter,
      (verify otpValid none (some nonceA) 0 1 100 snA (.found infoW) recSent
        1 [respB] 7 9).1.yk_use) = (2, 0)) ∧
    ((verify otpValid none (some nonceA) 0 1 100 snA (.found infoW)
        (verify otpValid none (some nonceA) 0 1 100 snA (.found infoW) recSent
          1 [respB] 7 9).1
        1 [] 11 13).2 =
      .error (.ykval .REPLAYED_OTP)) :=
  ⟨rfl, rfl, rfl⟩

/-- C10 (amended). For every verify call that passes the local replay check (with
a client-supplied nonce and the stored row fetched for the OTP's public name),
the conditional counter update is committed before replication and the phishing
test, and a later failure does not restore the prior stored state. When no
collected sibling response carries counters strictly greater than the OTP's
(always the case for NOT_ENOUGH_ANSWERS and DELAYED_OTP, and for REPLAYED_OTP
proved by an equal-counters different-nonce response), the stored row holds
exactly the OTP's counters and the request nonce, and retrying the identical OTP
and nonce fails with REPLAYED_REQUEST. (A sibling response with strictly greater
counters advances the store beyond the OTP's values instead, and the retry fails
with REPLAYED_OTP — see the counterexample.) -/
theorem C10_amended_update_survives (otp : String) (cid : Option ℤ) (s : String)
    (ts tmo sl : ℤ) (sn sn2 : String) (info : OtpInfo) (rec : KeyRecord) (n_servers : ℕ)
    (arr arr2 : List OtpParams) (t1 t2 t3 t4 : ℤ) (e : YKValError)
    (hs : s ≠ "")
    (hname : rec.yk_publicname = otp.dropRight TOKEN_LEN)
    (hcheck : check_parameters (mkParams otp cid (some s) ts tmo sl sn) = .ok ())
    (hactive : rec.active = true)
    (hval : counters_gte rec.ctr
      (build_otp_params (mkParams otp cid (some s) ts tmo sl sn) info t1).ctr = false)
    (hnogt : ∀ r ∈ arr.take (req_answers n_servers sl).toNat,
      ¬counters_gt r.ctr
        (build_otp_params (mkParams otp cid (some s) ts tmo sl sn) info t1).ctr = true)
    (hfail : (verify otp cid (some s) ts tmo sl sn (.found info) rec n_servers arr t1 t2).2 =
      .error (.ykval e)) :
    ((verify otp cid (some s) ts tmo sl sn (.found info) rec n_servers arr t1 t2).1.yk_counter =
        info.counter ∧
     (verify otp cid (some s) ts tmo sl sn (.found info) rec n_servers arr t1 t2).1.yk_use =
        info.use ∧
     (verify otp cid (some s) ts tmo sl sn (.found info) rec n_servers arr t1 t2).1.nonce = s) ∧
    (verify otp cid (some s) ts tmo sl sn2 (.found info)
      (verify otp cid (some s) ts tmo sl sn (.found info) rec n_servers arr t1 t2).1
      n_servers arr2 t3 t4).2 = .error (.ykval .REPLAYED_REQUEST) := by
  have hstate := verify_state_after otp cid (some s) ts tmo sl sn info rec n_servers arr t1 t2
    hname hcheck hactive hval hnogt
  have hname2 : rec.yk_publicname =
      (build_otp_params (mkParams otp cid (some s) ts tmo sl sn) info t1).yk_publicname := by
    simp only [build_otp_params, mkParams]
    exact hname
  have happ := update_db_counters_applied rec
    (build_otp_params (mkParams otp cid (some s) ts tmo sl sn) info t1)
    hname2 ((counters_gte_false_iff _ _).mp hval)
  have hc : (verify otp cid (some s) ts tmo sl sn (.found info) rec
      n_servers arr t1 t2).1.yk_counter = info.counter := by
    rw [hstate, happ]
    rfl
  have hu : (verify otp cid (some s) ts tmo sl sn (.found info) rec
      n_servers arr t1 t2).1.yk_use = info.use := by
    rw [hstate, happ]
    rfl
  have hnn : (verify otp cid (some s) ts tmo sl sn (.found info) rec
      n_servers arr t1 t2).1.nonce = s := by
    rw [hstate, happ]
    show (if s = "" then sn else s) = s
    rw [if_neg hs]
  have hact2 : (verify otp cid (some s) ts tmo sl sn (.found info) rec
      n_servers arr t1 t2).1.active = true := by
    rw [hstate, update_db_counters_active]
    exact hactive
  have hpeq : mkParams otp cid (some s) ts tmo sl sn2 =
      mkParams otp cid (some s) ts tmo sl sn := by
    simp [mkParams, effective_nonce, hs]
  refine ⟨⟨hc, hu, hnn⟩, ?_⟩
  exact verify_replayed_request otp cid s ts tmo sl sn2 info _ n_servers arr2 t3 t4
    hs (by rw [hpeq]; exact hcheck) hact2 hc hu hnn

set_option maxRecDepth 40000 in
/-- C10 amended witness: quorum 1 with no sibling answers arriving: the first
call fails with NOT_ENOUGH_ANSWERS, the stored row holds the OTP's counters and
nonce, and the retry fails with REPLAYED_REQUEST. -/
theorem C10_amended_update_survives_witness :
    ((verify otpValid none (some nonceA) 0 1 100 snA (.found infoW) recSent
        1 [] 7 9).1.yk_counter = infoW.counter ∧
     (verify otpValid none (some nonceA) 0 1 100 snA (.found infoW) recSent
        1 [] 7 9).1.yk_use = infoW.use ∧
     (verify otpValid none (some nonceA) 0 1 100 snA (.found infoW) recSent
        1 [] 7 9).1.nonce = nonceA) ∧
    (verify otpValid none (some nonceA) 0 1 100 snA (.found infoW)
      (verify otpValid none (some nonceA) 0 1 100 snA (.found infoW) recSent 1 [] 7 9).1
      1 [] 11 13).2 = .error (.ykval .REPLAYED_REQUEST) :=
  C10_amended_update_survives otpValid none nonceA 0 1 100 snA snA infoW recSent 1 [] []
    7 9 11 13 .NOT_ENOUGH_ANSWERS (by decide) (by decide) rfl rfl rfl
    (by simp) rfl

end Yubistack
